import Mathlib

/-
Verification of the mcp-citadel hub core against its specification.

The development shallowly embeds the relevant Rust code:
  * src/router/mod.rs   — MCPServerProcess (stop), HubManager (health_check,
                          route_message), extract_server_name
  * src/transport/http.rs — HttpSession (buffering, replay), needs_streaming,
                          handle_post, handle_get, extract_server_name

Byte strings fed to serde_json are abstracted by their parse outcome
(an `Option Json`: `none` models both invalid UTF-8 and a JSON parse
failure, exactly the two `ok()?` exits of extract_server_name).
Instants are natural numbers; elapsed-time observations are taken as
inputs at the point the code reads them.
-/

namespace MCPCitadel

/-- JSON values as produced by serde_json parsing. Objects are modelled
as association lists of key-value pairs (serde_json maps have unique
keys; lookup returns the binding of the key). -/
inductive Json where
  | null : Json
  | bool : Bool → Json
  | num : Int → Json
  | str : String → Json
  | arr : List Json → Json
  | obj : List (String × Json) → Json

/-- Key lookup in the field list of a JSON object. -/
def lookupField : List (String × Json) → String → Option Json
  | [], _ => none
  | (k, v) :: rest, key => if k = key then some v else lookupField rest key

/-- Model of serde_json Value::get with a string index: a lookup on an
object, `none` on every other value. -/
def Json.get : Json → String → Option Json
  | Json.obj fields, key => lookupField fields key
  | _, _ => none

/-- Model of serde_json Value::as_str. -/
def Json.asStr : Json → Option String
  | Json.str s => some s
  | _ => none

/-- Characters of a string before the first '/' (all of them when no
'/' occurs). -/
def firstSegmentAux : List Char → List Char
  | [] => []
  | c :: rest => if c = '/' then [] else c :: firstSegmentAux rest

/-- Model of Rust `method_str.split('/').next()`: the split iterator on
a string always yields at least one item, namely the substring before
the first separator (the whole string when no separator occurs). -/
def splitFirst (s : String) : String :=
  String.mk (firstSegmentAux s.data)

/-- The method-prefix fallback of extract_server_name
(src/router/mod.rs lines 386-393, src/transport/http.rs lines 506-513):
if the message has a string-valued `method`, return the substring before
the first slash. -/
def methodFallback (value : Json) : Option String :=
  match value.get "method" with
  | some m =>
    match m.asStr with
    | some methodStr => some (splitFirst methodStr)
    | none => none
  | none => none

/-- extract_server_name (src/router/mod.rs lines 375-396 and the
identical copy in src/transport/http.rs lines 495-516), over the parse
outcome of the input bytes. When `params.server` exists, the function
returns `server.as_str().map(String::from)` immediately — also when the
field is not a string, in which case the result is `none` with no
fallback to the method rule. -/
def extract_server_name (parsed : Option Json) : Option String :=
  match parsed with
  | none => none
  | some value =>
    match value.get "params" with
    | some params =>
      match params.get "server" with
      | some server => server.asStr
      | none => methodFallback value
    | none => methodFallback value

/-- Modelled from the claim's words (for comparison with the code): the
variant of extract_server_name in which a `params.server` field that is
not a string falls through to the method rule. -/
def claimed_extract_server_name (parsed : Option Json) : Option String :=
  match parsed with
  | none => none
  | some value =>
    match (value.get "params").bind (fun p => p.get "server") with
    | some (Json.str s) => some s
    | _ => methodFallback value

/-- Modelled from the amended claim's words: `params.server` present and
a string wins; `params.server` present but not a string yields `none`
with no fallback; otherwise the method-prefix rule applies; otherwise
`none`. -/
def amended_extract_server_name (parsed : Option Json) : Option String :=
  match parsed with
  | none => none
  | some value =>
    match (value.get "params").bind (fun p => p.get "server") with
    | some (Json.str s) => some s
    | some _ => none
    | none =>
      match (value.get "method").bind Json.asStr with
      | some m => some (splitFirst m)
      | none => none

/-- needs_streaming (src/transport/http.rs lines 453-468): the
`matches!` over the six streaming methods. -/
def needs_streaming (method : String) : Bool :=
  method == "initialize"
    || method == "initialized"
    || method == "sampling/createMessage"
    || method == "roots/list_changed"
    || method == "notifications/cancelled"
    || method == "notifications/progress"

/-- Method extraction of handle_post (src/transport/http.rs lines
194-197): the string value of the `method` field, empty when absent or
not a string. -/
def method_of (value : Json) : String :=
  ((value.get "method").bind Json.asStr).getD ""

/-- Lookup in a string-keyed map modelled as an association list
(the HashMaps of the code: sessions, servers, restart_counts). -/
def lookupA {β : Type} : List (String × β) → String → Option β
  | [], _ => none
  | (k, v) :: rest, key => if k = key then some v else lookupA rest key

/-- HashMap insert: replace the binding of the key in place, or append a
fresh binding. -/
def insertA {β : Type} : List (String × β) → String → β → List (String × β)
  | [], key, v => [(key, v)]
  | (k, w) :: rest, key, v =>
    if k = key then (key, v) :: rest else (k, w) :: insertA rest key v

/-- HashMap remove: drop every binding of the key. -/
def removeA {β : Type} (m : List (String × β)) (key : String) : List (String × β) :=
  m.filter (fun p => decide ¬(p.1 = key))

/-- BufferedMessage (src/transport/http.rs lines 33-38). -/
structure BufferedMessage where
  event_id : Nat
  event_type : Option String
  data : String
deriving DecidableEq

/-- HttpSession (src/transport/http.rs lines 41-54). The mpsc sender
`event_tx` is abstracted by its presence. -/
structure HttpSession where
  id : String
  created_at : Nat
  last_activity : Nat
  server_name : Option String
  has_event_tx : Bool
  last_event_id : Nat
  message_buffer : List BufferedMessage
deriving DecidableEq

/-- HttpSession::new (lines 57-67), with the generated UUID and the
current instant as inputs. -/
def HttpSession.new (freshId : String) (now : Nat) : HttpSession :=
  { id := freshId
    created_at := now
    last_activity := now
    server_name := none
    has_event_tx := false
    last_event_id := 0
    message_buffer := [] }

/-- HttpSession::touch (lines 73-75). -/
def HttpSession.touch (s : HttpSession) (now : Nat) : HttpSession :=
  { s with last_activity := now }

/-- Maximum replay-buffer length (line 83). -/
def MAX_BUFFER_SIZE : Nat := 100

/-- HttpSession::buffer_message (lines 82-95): push, then drop the
front element when the length exceeds the cap. -/
def HttpSession.buffer_message (s : HttpSession) (event_id : Nat)
    (event_type : Option String) (data : String) : HttpSession :=
  let buf := s.message_buffer ++ [⟨event_id, event_type, data⟩]
  { s with message_buffer := if buf.length > MAX_BUFFER_SIZE then buf.drop 1 else buf }

/-- HttpSession::get_messages_after (lines 97-103). -/
def HttpSession.get_messages_after (s : HttpSession) (last_event_id : Nat) :
    List BufferedMessage :=
  s.message_buffer.filter (fun msg => decide (msg.event_id > last_event_id))

/-- The sessions HashMap guarded by the AppState lock. -/
abbrev SessionsMap := List (String × HttpSession)

/-- Data carried by an SSE event: either a raw string (child replies,
the session bootstrap body) or a JSON value built by the handler
(error objects, kept structured to stay independent of serde_json's
key-ordering on serialization). -/
inductive EventData where
  | raw : String → EventData
  | json : Json → EventData

/-- An axum SSE event as assembled by the code: optional id, optional
event type, data. -/
structure SseEvent where
  id : Option String
  event_type : Option String
  data : EventData

/-- Outcome of HubManager::route_message as observed by handle_post:
either the reply bytes (represented by their UTF-8 decoding, `none`
when the bytes are not valid UTF-8) or an error message. -/
inductive RouteOutcome where
  | ok : Option String → RouteOutcome
  | err : String → RouteOutcome

/-- Body of a direct JSON response of handle_post: the raw child reply
(bytes, not inspected) or a routing-error JSON object. -/
inductive PostBody where
  | jsonOk : PostBody
  | jsonErr : Json → PostBody

/-- Result of handle_post: an HTTP error status, a direct JSON
response, or an SSE stream given as the list of events it delivers
together with the event id allocated for the request. -/
inductive PostOutcome where
  | fail : Nat → PostOutcome
  | json : PostBody → PostOutcome
  | sse : List SseEvent → Nat → PostOutcome

/-- Result of handle_get: an HTTP error status or an SSE stream given
as the list of replayed events it delivers before live events. -/
inductive GetOutcome where
  | fail : Nat → GetOutcome
  | sse : List SseEvent → GetOutcome

/-- Substring containment, modelling Rust str::contains with a string
pattern. -/
def contains_sub (s pat : String) : Bool :=
  decide (List.IsInfix pat.toList s.toList)

/-- Error categorization of the SSE path (src/transport/http.rs lines
331-339): match on substrings of the error message. -/
def classify_error (msg : String) : Int × String :=
  if contains_sub msg "not found" then (-32001, "server_not_found")
  else if contains_sub msg "timeout" then (-32002, "timeout")
  else if contains_sub msg "crashed" then (-32003, "server_crash")
  else (-32603, "internal_error")

/-- The JSON-RPC error object built by handle_post (lines 249-260 and
341-352): jsonrpc, echoed id (null when the request had none), and an
error member with code, message and data.type / data.server. -/
def routing_error_json (json_id : Option Json) (code : Int) (msg : String)
    (etype : String) (server : String) : Json :=
  Json.obj
    [("jsonrpc", Json.str "2.0"),
     ("id", json_id.getD Json.null),
     ("error", Json.obj
        [("code", Json.num code),
         ("message", Json.str msg),
         ("data", Json.obj
            [("type", Json.str etype),
             ("server", Json.str server)])])]

/-- The parse-error object of the invalid-UTF-8 branch (lines 319-323). -/
def parse_error_json : Json :=
  Json.obj
    [("code", Json.num (-32700)),
     ("message", Json.str "Parse error: Invalid UTF-8 response"),
     ("data", Json.obj [("type", Json.str "parse_error")])]

/-- Body of the session bootstrap event (line 370):
format of the sessionId object. -/
def session_bootstrap (session_id : String) : String :=
  "\x7b\"sessionId\":\"" ++ session_id ++ "\"\x7d"

/-- handle_post (src/transport/http.rs lines 171-381). Inputs abstract
the request: the origin and protocol-version checks as booleans, the
mcp-session-id header, the body by its JSON parse outcome, the backend
interaction by its RouteOutcome, the generated UUID and current instant
as parameters. The returned events are those the SSE stream delivers
once the spawned responder has completed. -/
def handle_post (sessions : SessionsMap) (now : Nat) (freshId : String)
    (originOk protocolOk : Bool) (sessionHeader : Option String)
    (parsed : Option Json) (route : RouteOutcome) :
    PostOutcome × SessionsMap :=
  if !originOk then (PostOutcome.fail 403, sessions)
  else if !protocolOk then (PostOutcome.fail 400, sessions)
  else match parsed with
  | none => (PostOutcome.fail 400, sessions)
  | some json_value =>
    let method := method_of json_value
    let initFlag := method == "initialize"
    let use_streaming := needs_streaming method
    let resolved : Except Nat (String × SessionsMap) :=
      if initFlag then
        Except.ok (freshId, insertA sessions freshId (HttpSession.new freshId now))
      else match sessionHeader with
        | some sid =>
          match lookupA sessions sid with
          | some _ => Except.ok (sid, sessions)
          | none => Except.error 404
        | none => Except.error 400
    match resolved with
    | Except.error code => (PostOutcome.fail code, sessions)
    | Except.ok (session_id, sessions1) =>
      match extract_server_name parsed with
      | none => (PostOutcome.fail 400, sessions1)
      | some server_name =>
        if !use_streaming then
          match route with
          | RouteOutcome.ok _ => (PostOutcome.json PostBody.jsonOk, sessions1)
          | RouteOutcome.err e =>
            (PostOutcome.json (PostBody.jsonErr
               (routing_error_json (json_value.get "id") (-32603) e
                  "routing_error" server_name)), sessions1)
        else
          match lookupA sessions1 session_id with
          | none => (PostOutcome.fail 500, sessions1)
          | some s =>
            let s1 := { s with last_activity := now
                               server_name := some server_name
                               has_event_tx := true }
            let event_id := s1.last_event_id + 1
            let s2 := { s1 with last_event_id := event_id }
            let sessions2 := insertA sessions1 session_id s2
            let spawned : List SseEvent × SessionsMap :=
              match route with
              | RouteOutcome.ok (some reply) =>
                let dataStr := reply.trimRight
                let ev : SseEvent :=
                  { id := some (toString event_id), event_type := none,
                    data := EventData.raw dataStr }
                let sessions3 :=
                  match lookupA sessions2 session_id with
                  | some sess =>
                    insertA sessions2 session_id
                      (sess.buffer_message event_id none dataStr)
                  | none => sessions2
                ([ev], sessions3)
              | RouteOutcome.ok none =>
                ([{ id := none, event_type := some "error",
                    data := EventData.json parse_error_json }], sessions2)
              | RouteOutcome.err e =>
                let code := (classify_error e).1
                let etype := (classify_error e).2
                ([{ id := none, event_type := some "error",
                    data := EventData.json
                      (routing_error_json (json_value.get "id") code e
                         etype server_name) }], sessions2)
            let events :=
              if initFlag then
                { id := none, event_type := some "session",
                  data := EventData.raw (session_bootstrap session_id) } :: spawned.1
              else spawned.1
            (PostOutcome.sse events event_id, spawned.2)

/-- handle_get (src/transport/http.rs lines 384-450). The last-event-id
header is abstracted by its parse outcome. Returned events are the
replayed buffer suffix pushed before live events flow. -/
def handle_get (sessions : SessionsMap) (now : Nat) (originOk : Bool)
    (sessionHeader : Option String) (lastEventIdHeader : Option Nat) :
    GetOutcome × SessionsMap :=
  if !originOk then (GetOutcome.fail 403, sessions)
  else match sessionHeader with
  | none => (GetOutcome.fail 400, sessions)
  | some sid =>
    match lookupA sessions sid with
    | none => (GetOutcome.fail 404, sessions)
    | some s =>
      let s1 := s.touch now
      let replay :=
        match lastEventIdHeader with
        | some lastId => s1.get_messages_after lastId
        | none => []
      let s2 := { s1 with has_event_tx := true }
      let events := replay.map (fun msg =>
        { id := some (toString msg.event_id), event_type := msg.event_type,
          data := EventData.raw msg.data : SseEvent })
      (GetOutcome.sse events, insertA sessions sid s2)

/-- Whether a handle_post outcome is an SSE stream. -/
def isSse : PostOutcome → Bool
  | PostOutcome.sse _ _ => true
  | _ => false

/-- The events delivered by a handle_post outcome. -/
def post_events : PostOutcome → List SseEvent
  | PostOutcome.sse evs _ => evs
  | _ => []

/-- The events delivered by a handle_get outcome. -/
def get_events : GetOutcome → List SseEvent
  | GetOutcome.sse evs => evs
  | _ => []

/-- Observation the health check makes of a child via try_wait and
start_time.elapsed (src/router/mod.rs lines 198-254): still running
(Ok None), exited with the whole-second uptime read at the check
(Ok Some status), or a polling error (Err). -/
inductive ProcStatus where
  | running : ProcStatus
  | exited : Nat → ProcStatus
  | pollError : ProcStatus
deriving DecidableEq

/-- A live-map entry of the supervisor (an MCPServerProcess): a tag
identifying the spawned instance, and its status as the next health
check will observe it. -/
structure ChildProc where
  tag : Nat
  status : ProcStatus
deriving DecidableEq

/-- HubManager state relevant to health_check and route_message
(src/router/mod.rs lines 129-134): the live servers map and the
restart_counts map. -/
structure HubState where
  servers : List (String × ChildProc)
  restart_counts : List (String × Nat)
deriving DecidableEq

/-- Restart counter of a name, reading an absent entry as 0 (the
or_insert(0) default of the code). -/
def countOf (st : HubState) (name : String) : Nat :=
  (lookupA st.restart_counts name).getD 0

/-- Maximum restart attempts (src/router/mod.rs line 192). -/
def MAX_RESTARTS : Nat := 3

/-- Result of HubManager::route_message (src/router/mod.rs lines
161-168): the name is absent from the live map, or the message is
forwarded to the mapped child (identified by tag). -/
inductive RouteResult where
  | notFound : RouteResult
  | forwarded : Nat → RouteResult
deriving DecidableEq

/-- HubManager::route_message, observationally: lookup in the live map,
NotFound when absent, forward to the found child otherwise. -/
def route_message (st : HubState) (name : String) : RouteResult :=
  match lookupA st.servers name with
  | none => RouteResult.notFound
  | some c => RouteResult.forwarded c.tag

/-- The entry-API call restart_counts.entry(name).or_insert(0) of the
health check (src/router/mod.rs line 201): materialize a 0 entry when
the name has none. -/
def countsAfterEntry (counts : List (String × Nat)) (name : String) :
    List (String × Nat) :=
  if (lookupA counts name).isSome then counts else insertA counts name 0

/-- Body of the health_check loop for one config entry (src/router/mod.rs
lines 194-255). The outcome of MCPServerProcess::start for a restart
attempt is an oracle: some new child, or none when start failed. -/
def health_step (start : String → Option ChildProc) (st : HubState)
    (name : String) : HubState :=
  match lookupA st.servers name with
  | none => st
  | some server =>
    match server.status with
    | ProcStatus.running =>
      { st with restart_counts := insertA st.restart_counts name 0 }
    | ProcStatus.pollError => st
    | ProcStatus.exited uptime =>
      let counts1 := countsAfterEntry st.restart_counts name
      let count := (lookupA counts1 name).getD 0
      if uptime < 5 then
        { servers := removeA st.servers name, restart_counts := counts1 }
      else if count ≥ MAX_RESTARTS then
        { servers := removeA st.servers name, restart_counts := counts1 }
      else
        let counts2 := insertA counts1 name (count + 1)
        match start name with
        | some new_server =>
          { servers := insertA st.servers name new_server, restart_counts := counts2 }
        | none =>
          { servers := st.servers, restart_counts := counts2 }

/-- HubManager::health_check (src/router/mod.rs lines 188-259): the
loop over the configured names. -/
def health_check (start : String → Option ChildProc) (configs : List String)
    (st : HubState) : HubState :=
  configs.foldl (health_step start) st

/-- A sequence of later health-check ticks, each with its own start
oracle and config list. -/
def run_ticks (ticks : List ((String → Option ChildProc) × List String))
    (st : HubState) : HubState :=
  ticks.foldl (fun s t => health_check t.1 t.2 s) st

/-- I/O error relevant to stop: the InvalidInput error tokio's
Child::start_kill returns for a child whose exit status was already
captured by wait. -/
inductive IoError where
  | invalidInput : IoError
deriving DecidableEq

/-- State of the tokio::process::Child owned by an MCPServerProcess:
whether its exit status has been captured (tokio's FusedChild::Done). -/
structure TokioChild where
  reaped : Bool
deriving DecidableEq

/-- Model of tokio::process::Child::kill (start_kill then wait): on a
child whose status was already captured, start_kill returns an
InvalidInput error; otherwise the child is killed and waited, capturing
the status. -/
def child_kill (c : TokioChild) : Except IoError TokioChild :=
  if c.reaped then Except.error IoError.invalidInput
  else Except.ok { reaped := true }

/-- Model of tokio::process::Child::wait: captures (or re-reads the
cached) exit status; never fails in this model. -/
def child_wait (_ : TokioChild) : Except IoError TokioChild :=
  Except.ok { reaped := true }

/-- MCPServerProcess::stop (src/router/mod.rs lines 120-125):
process.kill().await? then process.wait().await?. -/
def stop (c : TokioChild) : Except IoError TokioChild :=
  match child_kill c with
  | Except.error e => Except.error e
  | Except.ok c1 => child_wait c1

/-- Concrete message whose params.server exists but is a number. -/
def c1cex : Json :=
  Json.obj
    [("params", Json.obj [("server", Json.num 42)]),
     ("method", Json.str "github/tools/list")]

/-- Concrete message with a string method and a numeric params.server. -/
def c9cex : Json :=
  Json.obj
    [("method", Json.str "foo/bar"),
     ("params", Json.obj [("server", Json.num 7)])]

/-- Concrete session with three buffered messages. -/
def sWit : HttpSession :=
  { id := "s", created_at := 0, last_activity := 0, server_name := none,
    has_event_tx := false, last_event_id := 3,
    message_buffer := [⟨1, none, "a"⟩, ⟨2, none, "b"⟩, ⟨3, none, "c"⟩] }

/-- Concrete buffered message of sWit. -/
def mWit : BufferedMessage := ⟨2, none, "b"⟩

/-- Concrete hub state with one exited child of uptime 10 s and no
recorded restarts. -/
def stC2 : HubState :=
  { servers := [("a", ⟨0, ProcStatus.exited 10⟩)], restart_counts := [] }

/-- Concrete hub state with one exited child of uptime 20 s and one
recorded restart. -/
def stC2w : HubState :=
  { servers := [("g", ⟨1, ProcStatus.exited 20⟩)], restart_counts := [("g", 1)] }

/-- Start oracle that always succeeds with a fresh running child. -/
def startW : String → Option ChildProc := fun _ => some ⟨2, ProcStatus.running⟩

/-- Concrete hub state with one fast-crashed child (uptime 1 s). -/
def stC3 : HubState :=
  { servers := [("b", ⟨5, ProcStatus.exited 1⟩)], restart_counts := [("b", 2)] }

/-- Concrete idle session created at instant 0. -/
def sessC5 : HttpSession :=
  { id := "s1", created_at := 0, last_activity := 0, server_name := none,
    has_event_tx := false, last_event_id := 0, message_buffer := [] }

/-- Concrete session store holding sessC5. -/
def sessionsC5 : SessionsMap := [("s1", sessC5)]

/-- Concrete non-streaming request body: method tools/list, server
alpha. -/
def bodyC5 : Json :=
  Json.obj
    [("method", Json.str "tools/list"),
     ("params", Json.obj [("server", Json.str "alpha")])]

/-- Concrete idle session created at instant 1. -/
def sessW : HttpSession :=
  { id := "sw", created_at := 1, last_activity := 1, server_name := none,
    has_event_tx := false, last_event_id := 4, message_buffer := [] }

/-- Concrete session store holding sessW. -/
def sessionsW : SessionsMap := [("sw", sessW)]

/-- Concrete streaming (non-initialize) request body. -/
def bodyW : Json :=
  Json.obj
    [("method", Json.str "notifications/progress"),
     ("params", Json.obj [("server", Json.str "alpha")])]

/-- Concrete initialize request body targeting server alpha. -/
def bodyC7 : Json :=
  Json.obj
    [("method", Json.str "initialize"),
     ("params", Json.obj [("server", Json.str "alpha")])]

end MCPCitadel

namespace MCPCitadel

theorem lookupA_insertA_self {β : Type} (m : List (String × β)) (k : String) (v : β) :
    lookupA (insertA m k v) k = some v := by
  induction m with
  | nil => simp [insertA, lookupA]
  | cons p rest ih =>
    obtain ⟨a, b⟩ := p
    by_cases h : a = k
    · simp [insertA, h, lookupA]
    · simp [insertA, h, lookupA, ih]

theorem lookupA_insertA_ne {β : Type} (m : List (String × β)) (k key : String) (v : β)
    (h : k ≠ key) : lookupA (insertA m k v) key = lookupA m key := by
  induction m with
  | nil => simp [insertA, lookupA, h]
  | cons p rest ih =>
    obtain ⟨a, b⟩ := p
    by_cases ha : a = k
    · subst ha; simp [insertA, lookupA, h]
    · simp [insertA, ha, lookupA, ih]

theorem insertA_insertA_self {β : Type} (m : List (String × β)) (k : String) (v w : β) :
    insertA (insertA m k v) k w = insertA m k w := by
  induction m with
  | nil => simp [insertA]
  | cons p rest ih =>
    obtain ⟨a, b⟩ := p
    by_cases h : a = k
    · simp [insertA, h]
    · simp [insertA, h, ih]

theorem removeA_cons {β : Type} (a : String) (b : β) (rest : List (String × β))
    (k : String) :
    removeA ((a, b) :: rest) k =
      if a = k then removeA rest k else (a, b) :: removeA rest k := by
  by_cases h : a = k <;> simp [removeA, List.filter_cons, h]

theorem lookupA_removeA_self {β : Type} (m : List (String × β)) (k : String) :
    lookupA (removeA m k) k = none := by
  induction m with
  | nil => simp [removeA, lookupA]
  | cons p rest ih =>
    obtain ⟨a, b⟩ := p
    rw [removeA_cons]
    by_cases h : a = k
    · simpa [h] using ih
    · simp [h, lookupA, ih]

theorem lookupA_removeA_ne {β : Type} (m : List (String × β)) (k key : String)
    (h : k ≠ key) : lookupA (removeA m k) key = lookupA m key := by
  induction m with
  | nil => simp [removeA, lookupA]
  | cons p rest ih =>
    obtain ⟨a, b⟩ := p
    rw [removeA_cons]
    by_cases ha : a = k
    · subst ha
      have hak : ¬(a = key) := h
      simp [lookupA, hak, ih]
    · simp [ha, lookupA, ih]

theorem methodFallback_eq (v : Json) :
    methodFallback v = ((v.get "method").bind Json.asStr).map splitFirst := by
  unfold methodFallback
  cases hm : v.get "method" with
  | none => rfl
  | some m => cases m <;> rfl

/-- C1: extract_server_name agrees with the claim's description except
when params.server exists and is not a string: there the code returns
None without falling through to the method rule, while the claim says
it falls through. This theorem proves the claim as amended: the code
equals the amended description on every parse outcome. -/
theorem extract_server_name_amended_ok (parsed : Option Json) :
    extract_server_name parsed = amended_extract_server_name parsed := by
  cases parsed with
  | none => rfl
  | some v =>
    unfold extract_server_name amended_extract_server_name
    cases hp : v.get "params" with
    | none =>
      simp only [hp, Option.none_bind, methodFallback_eq]
      cases hm : v.get "method" with
      | none => simp [hm]
      | some m => cases m <;> simp [hm, Json.asStr]
    | some params =>
      simp only [hp, Option.some_bind]
      cases hs : params.get "server" with
      | none =>
        simp only [hs, methodFallback_eq]
        cases hm : v.get "method" with
        | none => simp [hm]
        | some m => cases m <;> simp [hm, Json.asStr]
      | some server => cases server <;> simp [hs, Json.asStr]

/-- C1 counterexample: on a message whose params.server is the number
42 and whose method is the string "github/tools/list", the code
returns None while the claim's fall-through description returns
Some "github". -/
theorem extract_server_name_nonstring_cex :
    extract_server_name (some c1cex) = none
    ∧ claimed_extract_server_name (some c1cex) = some "github" :=
  ⟨rfl, rfl⟩

/-- C9 counterexample: a message with string method "foo/bar" and a
params.server member that exists but is the number 7 (so the message
has no string-valued params.server) is mapped to None, not Some. -/
theorem extract_server_name_some_cex :
    (c9cex.get "method").bind Json.asStr = some "foo/bar"
    ∧ (c9cex.get "params").bind (fun p => p.get "server") = some (Json.num 7)
    ∧ extract_server_name (some c9cex) = none :=
  ⟨rfl, rfl, rfl⟩

/-- C9 as amended: when the parsed message has no params.server member
at all and a string-valued method, extraction returns Some of the
prefix before the first slash; moreover the empty method yields
Some "" and a method beginning with '/' yields Some "". -/
theorem extract_server_name_some_amended :
    (∀ (v : Json) (m : String),
      (v.get "params").bind (fun p => p.get "server") = none →
      (v.get "method").bind Json.asStr = some m →
      extract_server_name (some v) = some (splitFirst m))
    ∧ splitFirst "" = ""
    ∧ (∀ cs : List Char, splitFirst (String.mk ('/' :: cs)) = "") := by
  refine ⟨?_, rfl, ?_⟩
  · intro v m hps hm
    unfold extract_server_name
    cases hp : v.get "params" with
    | none => simp [hp, methodFallback_eq, hm]
    | some params =>
      have hs : params.get "server" = none := by
        simpa [hp] using hps
      simp [hp, hs, methodFallback_eq, hm]
  · intro cs
    simp [splitFirst, firstSegmentAux]

theorem extract_server_name_some_amended_witness :
    extract_server_name (some (Json.obj [("method", Json.str "alpha/tools")]))
      = some (splitFirst "alpha/tools") :=
  extract_server_name_some_amended.1
    (Json.obj [("method", Json.str "alpha/tools")]) "alpha/tools" rfl rfl

/-- C4: needs_streaming is true for exactly the six listed methods, and
a POST whose parsed method is any other string never responds with an
SSE stream (so it gets a direct JSON response or an error status). -/
theorem needs_streaming_exact (m : String) :
    (needs_streaming m = true ↔
      (m = "initialize" ∨ m = "initialized" ∨ m = "sampling/createMessage"
        ∨ m = "roots/list_changed" ∨ m = "notifications/cancelled"
        ∨ m = "notifications/progress"))
    ∧ (∀ (sessions : SessionsMap) (now : Nat) (freshId : String)
        (originOk protocolOk : Bool) (hdr : Option String) (v : Json)
        (route : RouteOutcome),
        method_of v = m → needs_streaming m = false →
        isSse (handle_post sessions now freshId originOk protocolOk
          hdr (some v) route).1 = false) := by
  constructor
  · simp [needs_streaming, Bool.or_eq_true, beq_iff_eq, or_assoc]
  · intro sessions now freshId oOk pOk hdr v route hm hns
    have hinit : (m == "initialize") = false := by
      cases hi : m == "initialize"
      · rfl
      · exfalso
        unfold needs_streaming at hns
        rw [hi] at hns
        simp at hns
    cases oOk with
    | false => simp [handle_post, isSse]
    | true =>
      cases pOk with
      | false => simp [handle_post, isSse]
      | true =>
        simp only [handle_post, hm, hns, hinit, Bool.not_true, Bool.not_false,
          Bool.false_eq_true, if_false, if_true, ite_true, ite_false]
        split
        · simp [isSse]
        · split
          · simp [isSse]
          · cases route <;> simp [isSse]

theorem needs_streaming_exact_witness :
    (needs_streaming "tools/list" = true ↔
      ("tools/list" = "initialize" ∨ "tools/list" = "initialized"
        ∨ "tools/list" = "sampling/createMessage"
        ∨ "tools/list" = "roots/list_changed"
        ∨ "tools/list" = "notifications/cancelled"
        ∨ "tools/list" = "notifications/progress"))
    ∧ isSse (handle_post [] 0 "f" true true none
        (some (Json.obj [("method", Json.str "tools/list")]))
        (RouteOutcome.ok (some "r"))).1 = false :=
  ⟨(needs_streaming_exact "tools/list").1,
   (needs_streaming_exact "tools/list").2 [] 0 "f" true true none
     (Json.obj [("method", Json.str "tools/list")])
     (RouteOutcome.ok (some "r")) rfl rfl⟩

/-- C6: get_messages_after returns exactly the buffered messages whose
event_id exceeds the given id, in buffer order (it is a sublist of the
buffer), and two calls against an unchanged buffer return identical
sequences. -/
theorem get_messages_after_spec (s : HttpSession) (lastId : Nat) :
    (∀ m : BufferedMessage,
        m ∈ s.get_messages_after lastId
          ↔ m ∈ s.message_buffer ∧ lastId < m.event_id)
    ∧ (s.get_messages_after lastId).Sublist s.message_buffer
    ∧ (∀ t : HttpSession, t.message_buffer = s.message_buffer →
        t.get_messages_after lastId = s.get_messages_after lastId) := by
  refine ⟨?_, ?_, ?_⟩
  · intro m
    simp [HttpSession.get_messages_after, List.mem_filter]
  · exact List.filter_sublist _
  · intro t h
    simp [HttpSession.get_messages_after, h]

theorem get_messages_after_spec_witness :
    (mWit ∈ sWit.get_messages_after 1
       ↔ mWit ∈ sWit.message_buffer ∧ 1 < mWit.event_id)
    ∧ (sWit.get_messages_after 1).Sublist sWit.message_buffer
    ∧ sWit.get_messages_after 1 = sWit.get_messages_after 1 :=
  ⟨(get_messages_after_spec sWit 1).1 mWit,
   (get_messages_after_spec sWit 1).2.1,
   (get_messages_after_spec sWit 1).2.2 sWit rfl⟩

/-- C8 counterexample: a first stop on a live child succeeds and leaves
the process reaped; a second stop on the same child returns an
InvalidInput error instead of succeeding, so stop is not idempotent. -/
theorem stop_stop_cex :
    stop { reaped := false } = Except.ok { reaped := true }
    ∧ stop { reaped := true } = Except.error IoError.invalidInput :=
  ⟨rfl, rfl⟩

/-- C8 as amended: after any successful stop the child is reaped, and a
second stop on it fails with InvalidInput (tokio's kill refuses a child
whose exit status was already captured). -/
theorem stop_second_errors (c c1 : TokioChild) (h : stop c = Except.ok c1) :
    stop c1 = Except.error IoError.invalidInput := by
  unfold stop child_kill child_wait at h ⊢
  by_cases hr : c.reaped
  · simp [hr] at h
  · simp [hr] at h
    subst h
    rfl

theorem stop_second_errors_witness :
    stop { reaped := true } = Except.error IoError.invalidInput :=
  stop_second_errors { reaped := false } { reaped := true } rfl

theorem countsAfterEntry_getD (counts : List (String × Nat)) (name : String) :
    (lookupA (countsAfterEntry counts name) name).getD 0
      = (lookupA counts name).getD 0 := by
  unfold countsAfterEntry
  cases h : lookupA counts name with
  | some n => simp [h]
  | none => simp [h, lookupA_insertA_self]

theorem absent_health_step (start : String → Option ChildProc) (st : HubState)
    (c name : String) (h : lookupA st.servers name = none) :
    lookupA (health_step start st c).servers name = none := by
  unfold health_step
  cases hl : lookupA st.servers c with
  | none => simpa [hl] using h
  | some server =>
    have hcn : c ≠ name := by
      intro e
      subst e
      rw [hl] at h
      exact Option.noConfusion h
    obtain ⟨tg, status⟩ := server
    simp only [hl]
    cases status with
    | running => simpa using h
    | pollError => simpa using h
    | exited u =>
      by_cases h5 : u < 5
      · simp [h5, lookupA_removeA_ne _ _ _ hcn, h]
      · by_cases hmax :
          (lookupA (countsAfterEntry st.restart_counts c) c).getD 0 ≥ MAX_RESTARTS
        · simp [h5, hmax, lookupA_removeA_ne _ _ _ hcn, h]
        · cases hs : start c with
          | some ns => simp [h5, hmax, hs, lookupA_insertA_ne _ _ _ _ hcn, h]
          | none => simp [h5, hmax, hs, h]

theorem absent_health_check (start : String → Option ChildProc)
    (configs : List String) (st : HubState) (name : String)
    (h : lookupA st.servers name = none) :
    lookupA (health_check start configs st).servers name = none := by
  induction configs generalizing st with
  | nil => simpa [health_check] using h
  | cons c rest ih =>
    exact ih (health_step start st c) (absent_health_step start st c name h)

theorem absent_run_ticks (ticks : List ((String → Option ChildProc) × List String))
    (st : HubState) (name : String)
    (h : lookupA st.servers name = none) :
    lookupA (run_ticks ticks st).servers name = none := by
  induction ticks generalizing st with
  | nil => simpa [run_ticks] using h
  | cons t rest ih =>
    exact ih (health_check t.1 t.2 st) (absent_health_check t.1 t.2 st name h)

/-- C3: a child found exited with uptime below 5 s is removed from the
live map by the health check, its restart counter (absent entries read
as 0) is unchanged, and it stays absent from the live map across every
sequence of later health-check ticks, so no restart is ever attempted
for it within this hub lifetime. -/
theorem health_fast_crash (start : String → Option ChildProc) (st : HubState)
    (name : String) (child : ChildProc) (u : Nat)
    (hfind : lookupA st.servers name = some child)
    (hstat : child.status = ProcStatus.exited u) (hu : u < 5) :
    lookupA (health_check start [name] st).servers name = none
    ∧ countOf (health_check start [name] st) name = countOf st name
    ∧ (∀ ticks : List ((String → Option ChildProc) × List String),
        lookupA (run_ticks ticks (health_check start [name] st)).servers name
          = none) := by
  have hone : health_check start [name] st = health_step start st name := rfl
  have hstep : health_step start st name =
      { servers := removeA st.servers name,
        restart_counts := countsAfterEntry st.restart_counts name } := by
    obtain ⟨tg, status⟩ := child
    replace hstat : status = ProcStatus.exited u := hstat
    subst hstat
    unfold health_step
    simp [hfind, hu]
  refine ⟨?_, ?_, ?_⟩
  · rw [hone, hstep]
    exact lookupA_removeA_self _ _
  · rw [hone, hstep]
    unfold countOf
    exact countsAfterEntry_getD _ _
  · intro ticks
    apply absent_run_ticks
    rw [hone, hstep]
    exact lookupA_removeA_self _ _

theorem health_fast_crash_witness :
    lookupA (health_check (fun _ => none) ["b"] stC3).servers "b" = none
    ∧ countOf (health_check (fun _ => none) ["b"] stC3) "b" = countOf stC3 "b"
    ∧ lookupA (run_ticks [] (health_check (fun _ => none) ["b"] stC3)).servers "b"
        = none := by
  have h := health_fast_crash (fun _ => none) stC3 "b" ⟨5, ProcStatus.exited 1⟩ 1
    rfl rfl (by decide)
  exact ⟨h.1, h.2.1, h.2.2 []⟩

/-- C2 as amended: for a child found exited with uptime at least 5 s
and restart count below MAX_RESTARTS, the health check increments the
counter and attempts a fresh start; on success the live-map entry is
replaced by the new child; on start failure the stale exited entry
remains in the live map (it is not removed), so a route_message for
that name still forwards to the dead child rather than yielding
NotFound — and the retained entry is what makes a retry on the next
tick possible. -/
theorem health_restart_amended (start : String → Option ChildProc) (st : HubState)
    (name : String) (child : ChildProc) (u : Nat)
    (hfind : lookupA st.servers name = some child)
    (hstat : child.status = ProcStatus.exited u)
    (hu : 5 ≤ u) (hcount : countOf st name < MAX_RESTARTS) :
    countOf (health_check start [name] st) name = countOf st name + 1
    ∧ (∀ c2 : ChildProc, start name = some c2 →
        lookupA (health_check start [name] st).servers name = some c2)
    ∧ (start name = none →
        lookupA (health_check start [name] st).servers name = some child
        ∧ route_message (health_check start [name] st) name
            = RouteResult.forwarded child.tag) := by
  have hone : health_check start [name] st = health_step start st name := rfl
  have hnot5 : ¬(u < 5) := not_lt.mpr hu
  have hcnt : (lookupA (countsAfterEntry st.restart_counts name) name).getD 0
      = countOf st name := countsAfterEntry_getD _ _
  have hnotmax :
      ¬((lookupA (countsAfterEntry st.restart_counts name) name).getD 0
          ≥ MAX_RESTARTS) := by
    rw [hcnt]
    exact not_le.mpr hcount
  obtain ⟨tg, status⟩ := child
  replace hstat : status = ProcStatus.exited u := hstat
  subst hstat
  cases hs : start name with
  | some c2 =>
    have hstep : health_step start st name =
        { servers := insertA st.servers name c2,
          restart_counts := insertA (countsAfterEntry st.restart_counts name) name
            ((lookupA (countsAfterEntry st.restart_counts name) name).getD 0 + 1) } := by
      unfold health_step
      simp [hfind, hnot5, hnotmax, hs]
    refine ⟨?_, ?_, ?_⟩
    · rw [hone, hstep]
      simp [countOf, lookupA_insertA_self, hcnt]
    · intro c2' hc2'
      injection hc2' with he
      subst he
      rw [hone, hstep]
      simp [lookupA_insertA_self]
    · intro hnone
      exact Option.noConfusion hnone
  | none =>
    have hstep : health_step start st name =
        { servers := st.servers,
          restart_counts := insertA (countsAfterEntry st.restart_counts name) name
            ((lookupA (countsAfterEntry st.restart_counts name) name).getD 0 + 1) } := by
      unfold health_step
      simp [hfind, hnot5, hnotmax, hs]
    refine ⟨?_, ?_, ?_⟩
    · rw [hone, hstep]
      simp [countOf, lookupA_insertA_self, hcnt]
    · intro c2' hc2'
      exact Option.noConfusion hc2'
    · intro _
      rw [hone, hstep]
      refine ⟨hfind, ?_⟩
      unfold route_message
      simp [hfind]

theorem health_restart_amended_witness :
    countOf (health_check startW [ "g"] stC2w) "g" = countOf stC2w "g" + 1
    ∧ lookupA (health_check startW [ "g"] stC2w).servers "g"
        = some ⟨2, ProcStatus.running⟩ := by
  have h := health_restart_amended startW stC2w "g" ⟨1, ProcStatus.exited 20⟩ 20
    rfl rfl (by decide) (by decide)
  exact ⟨h.1, h.2.1 ⟨2, ProcStatus.running⟩ rfl⟩

/-- C2 counterexample: with one configured child found exited after
10 s, restart count 0, and a start oracle that fails, the child's name
is still present in the live map after the health check (mapped to the
stale exited child) and route_message forwards to it — the claim's
prediction that the name is absent and route_message yields NotFound is
false. -/
theorem health_restart_failure_cex :
    lookupA (health_check (fun _ => none) ["a"] stC2).servers "a"
      = some ⟨0, ProcStatus.exited 10⟩
    ∧ route_message (health_check (fun _ => none) ["a"] stC2) "a"
      = RouteResult.forwarded 0 := by
  exact ⟨by decide, by decide⟩

theorem handle_post_streaming_eq
    (sessions : SessionsMap) (now : Nat) (freshId sid : String)
    (s : HttpSession) (v : Json) (route : RouteOutcome) (m srv : String)
    (hfind : lookupA sessions sid = some s)
    (hm : method_of v = m)
    (hstream : needs_streaming m = true)
    (hninit : (m == "initialize") = false)
    (hx : extract_server_name (some v) = some srv) :
    handle_post sessions now freshId true true (some sid) (some v) route =
      (match route with
       | RouteOutcome.ok (some reply) =>
         (PostOutcome.sse
            [{ id := some (toString (s.last_event_id + 1)), event_type := none,
               data := EventData.raw reply.trimRight }] (s.last_event_id + 1),
          insertA sessions sid
            (HttpSession.buffer_message
              { s with last_activity := now, server_name := some srv,
                       has_event_tx := true, last_event_id := s.last_event_id + 1 }
              (s.last_event_id + 1) none reply.trimRight))
       | RouteOutcome.ok none =>
         (PostOutcome.sse
            [{ id := none, event_type := some "error",
               data := EventData.json parse_error_json }] (s.last_event_id + 1),
          insertA sessions sid
            { s with last_activity := now, server_name := some srv,
                     has_event_tx := true, last_event_id := s.last_event_id + 1 })
       | RouteOutcome.err e =>
         (PostOutcome.sse
            [{ id := none, event_type := some "error",
               data := EventData.json (routing_error_json (v.get "id")
                 (classify_error e).1 e (classify_error e).2 srv) }]
            (s.last_event_id + 1),
          insertA sessions sid
            { s with last_activity := now, server_name := some srv,
                     has_event_tx := true, last_event_id := s.last_event_id + 1 })) := by
  unfold handle_post
  simp only [hm, hstream, hninit, hx, hfind, Bool.not_true, Bool.not_false,
    if_false, if_true, ite_true, ite_false]
  cases route with
  | ok r =>
    cases r with
    | some reply => simp [lookupA_insertA_self, insertA_insertA_self, hfind]
    | none => simp [hfind]
  | err e => simp [hfind]

theorem handle_post_init_eq
    (sessions : SessionsMap) (now : Nat) (freshId : String)
    (hdr : Option String) (v : Json) (route : RouteOutcome) (srv : String)
    (hm : method_of v = "initialize")
    (hx : extract_server_name (some v) = some srv) :
    handle_post sessions now freshId true true hdr (some v) route =
      (match route with
       | RouteOutcome.ok (some reply) =>
         (PostOutcome.sse
            [{ id := none, event_type := some "session",
               data := EventData.raw (session_bootstrap freshId) },
             { id := some (toString 1), event_type := none,
               data := EventData.raw reply.trimRight }] 1,
          insertA sessions freshId
            (HttpSession.buffer_message
              { id := freshId, created_at := now, last_activity := now,
                server_name := some srv, has_event_tx := true,
                last_event_id := 1, message_buffer := [] }
              1 none reply.trimRight))
       | RouteOutcome.ok none =>
         (PostOutcome.sse
            [{ id := none, event_type := some "session",
               data := EventData.raw (session_bootstrap freshId) },
             { id := none, event_type := some "error",
               data := EventData.json parse_error_json }] 1,
          insertA sessions freshId
            { id := freshId, created_at := now, last_activity := now,
              server_name := some srv, has_event_tx := true,
              last_event_id := 1, message_buffer := [] })
       | RouteOutcome.err e =>
         (PostOutcome.sse
            [{ id := none, event_type := some "session",
               data := EventData.raw (session_bootstrap freshId) },
             { id := none, event_type := some "error",
               data := EventData.json (routing_error_json (v.get "id")
                 (classify_error e).1 e (classify_error e).2 srv) }] 1,
          insertA sessions freshId
            { id := freshId, created_at := now, last_activity := now,
              server_name := some srv, has_event_tx := true,
              last_event_id := 1, message_buffer := [] })) := by
  unfold handle_post
  simp only [hm, hx, Bool.not_true, Bool.not_false, if_false, if_true,
    ite_true, ite_false]
  cases route with
  | ok r =>
    cases r with
    | some reply =>
      simp [needs_streaming, HttpSession.new, lookupA_insertA_self,
        insertA_insertA_self]
    | none =>
      simp [needs_streaming, HttpSession.new, lookupA_insertA_self,
        insertA_insertA_self]
  | err e =>
    simp [needs_streaming, HttpSession.new, lookupA_insertA_self,
      insertA_insertA_self]

/-- C5 as amended: a streaming POST bearing an existing session's id
touches that session (last_activity becomes the current instant), and
so does every GET bearing an existing session's id; but a
non-streaming POST bearing an existing session's id leaves the session
store — and hence last_activity — entirely unchanged. -/
theorem session_touch_amended :
    (∀ (sessions : SessionsMap) (now : Nat) (freshId sid : String)
       (s : HttpSession) (v : Json) (route : RouteOutcome) (m srv : String),
       lookupA sessions sid = some s → method_of v = m →
       needs_streaming m = true → (m == "initialize") = false →
       extract_server_name (some v) = some srv →
       (lookupA (handle_post sessions now freshId true true (some sid)
          (some v) route).2 sid).map HttpSession.last_activity = some now)
    ∧ (∀ (sessions : SessionsMap) (now : Nat) (sid : String) (s : HttpSession)
        (lid : Option Nat),
        lookupA sessions sid = some s →
        (lookupA (handle_get sessions now true (some sid) lid).2 sid).map
          HttpSession.last_activity = some now)
    ∧ (∀ (sessions : SessionsMap) (now : Nat) (freshId sid : String)
        (s : HttpSession) (v : Json) (route : RouteOutcome) (m : String),
        lookupA sessions sid = some s → method_of v = m →
        needs_streaming m = false →
        (handle_post sessions now freshId true true (some sid) (some v) route).2
          = sessions) := by
  refine ⟨?_, ?_, ?_⟩
  · intro sessions now freshId sid s v route m srv hfind hm hstream hninit hx
    rw [handle_post_streaming_eq sessions now freshId sid s v route m srv
      hfind hm hstream hninit hx]
    cases route with
    | ok r =>
      cases r with
      | some reply =>
        simp [lookupA_insertA_self, HttpSession.buffer_message]
      | none => simp [lookupA_insertA_self]
    | err e => simp [lookupA_insertA_self]
  · intro sessions now sid s lid hfind
    unfold handle_get
    simp only [hfind, Bool.not_true, if_false, ite_true, ite_false]
    simp [lookupA_insertA_self, HttpSession.touch]
  · intro sessions now freshId sid s v route m hfind hm hns
    have hninit : (m == "initialize") = false := by
      cases hi : m == "initialize"
      · rfl
      · exfalso
        unfold needs_streaming at hns
        rw [hi] at hns
        simp at hns
    unfold handle_post
    simp only [hm, hns, hninit, hfind, Bool.not_true, Bool.not_false,
      if_false, if_true, ite_true, ite_false]
    cases hx : extract_server_name (some v) with
    | none => simp [hx]
    | some srv => cases route <;> simp [hx]

theorem session_touch_amended_witness :
    (lookupA (handle_post sessionsW 7 "f" true true (some "sw") (some bodyW)
       (RouteOutcome.err "x")).2 "sw").map HttpSession.last_activity = some 7
    ∧ (lookupA (handle_get sessionsW 9 true (some "sw") none).2 "sw").map
        HttpSession.last_activity = some 9
    ∧ (handle_post sessionsW 11 "f" true true (some "sw") (some bodyC5)
        (RouteOutcome.ok (some "r"))).2 = sessionsW :=
  ⟨session_touch_amended.1 sessionsW 7 "f" "sw" sessW bodyW
     (RouteOutcome.err "x") "notifications/progress" "alpha" rfl rfl rfl rfl rfl,
   session_touch_amended.2.1 sessionsW 9 "sw" sessW none rfl,
   session_touch_amended.2.2 sessionsW 11 "f" "sw" sessW bodyC5
     (RouteOutcome.ok (some "r")) "tools/list" rfl rfl rfl⟩

/-- C5 counterexample: a non-streaming POST (method tools/list) bearing
the id of an existing session whose last_activity is 0 returns with the
session store unchanged — last_activity stays 0 instead of becoming the
current instant 100. -/
theorem session_touch_cex :
    (handle_post sessionsC5 100 "fresh" true true (some "s1") (some bodyC5)
      (RouteOutcome.ok (some "ok"))).2 = sessionsC5
    ∧ (lookupA sessionsC5 "s1").map HttpSession.last_activity = some 0 :=
  ⟨rfl, rfl⟩

/-- C7 as amended: in the SSE path only the normal data event carries
an id, equal to the session-scoped counter value allocated for the
request rendered as decimal; the error events (invalid UTF-8 reply and
routing error) and the session bootstrap event prepended on an
initialize POST carry no id at all. -/
theorem sse_event_id_amended :
    (∀ (sessions : SessionsMap) (now : Nat) (freshId sid : String)
       (s : HttpSession) (v : Json) (reply m srv : String),
       lookupA sessions sid = some s → method_of v = m →
       needs_streaming m = true → (m == "initialize") = false →
       extract_server_name (some v) = some srv →
       post_events (handle_post sessions now freshId true true (some sid)
          (some v) (RouteOutcome.ok (some reply))).1
         = [{ id := some (toString (s.last_event_id + 1)), event_type := none,
              data := EventData.raw reply.trimRight }])
    ∧ (∀ (sessions : SessionsMap) (now : Nat) (freshId sid : String)
        (s : HttpSession) (v : Json) (m srv : String),
        lookupA sessions sid = some s → method_of v = m →
        needs_streaming m = true → (m == "initialize") = false →
        extract_server_name (some v) = some srv →
        post_events (handle_post sessions now freshId true true (some sid)
           (some v) (RouteOutcome.ok none)).1
          = [{ id := none, event_type := some "error",
               data := EventData.json parse_error_json }])
    ∧ (∀ (sessions : SessionsMap) (now : Nat) (freshId sid : String)
        (s : HttpSession) (v : Json) (e m srv : String),
        lookupA sessions sid = some s → method_of v = m →
        needs_streaming m = true → (m == "initialize") = false →
        extract_server_name (some v) = some srv →
        post_events (handle_post sessions now freshId true true (some sid)
           (some v) (RouteOutcome.err e)).1
          = [{ id := none, event_type := some "error",
               data := EventData.json (routing_error_json (v.get "id")
                 (classify_error e).1 e (classify_error e).2 srv) }])
    ∧ (∀ (sessions : SessionsMap) (now : Nat) (freshId : String)
        (hdr : Option String) (v : Json) (route : RouteOutcome) (srv : String),
        method_of v = "initialize" →
        extract_server_name (some v) = some srv →
        (post_events (handle_post sessions now freshId true true hdr
           (some v) route).1).head?
          = some { id := none, event_type := some "session",
                   data := EventData.raw (session_bootstrap freshId) }) := by
  refine ⟨?_, ?_, ?_, ?_⟩
  · intro sessions now freshId sid s v reply m srv hfind hm hstream hninit hx
    rw [handle_post_streaming_eq sessions now freshId sid s v
      (RouteOutcome.ok (some reply)) m srv hfind hm hstream hninit hx]
    rfl
  · intro sessions now freshId sid s v m srv hfind hm hstream hninit hx
    rw [handle_post_streaming_eq sessions now freshId sid s v
      (RouteOutcome.ok none) m srv hfind hm hstream hninit hx]
    rfl
  · intro sessions now freshId sid s v e m srv hfind hm hstream hninit hx
    rw [handle_post_streaming_eq sessions now freshId sid s v
      (RouteOutcome.err e) m srv hfind hm hstream hninit hx]
    rfl
  · intro sessions now freshId hdr v route srv hm hx
    rw [handle_post_init_eq sessions now freshId hdr v route srv hm hx]
    cases route with
    | ok r => cases r <;> rfl
    | err e => rfl

theorem sse_event_id_amended_witness :
    post_events (handle_post sessionsW 7 "f" true true (some "sw") (some bodyW)
       (RouteOutcome.ok (some "data"))).1
      = [{ id := some (toString (sessW.last_event_id + 1)), event_type := none,
           data := EventData.raw (String.trimRight "data") }]
    ∧ (post_events (handle_post [] 0 "sid1" true true none (some bodyC7)
        (RouteOutcome.ok (some "data"))).1).head?
      = some { id := none, event_type := some "session",
               data := EventData.raw (session_bootstrap "sid1") } :=
  ⟨sse_event_id_amended.1 sessionsW 7 "f" "sw" sessW bodyW "data"
     "notifications/progress" "alpha" rfl rfl rfl rfl rfl,
   sse_event_id_amended.2.2.2 [] 0 "sid1" none bodyC7
     (RouteOutcome.ok (some "data")) "alpha" rfl rfl⟩

/-- C7 counterexample: on an initialize POST whose routing fails, the
SSE stream delivers exactly a session bootstrap event and an error
event, and both carry no id — the claim that every emitted event
carries the decimal counter id is false. -/
theorem sse_event_id_cex :
    (post_events (handle_post [] 0 "sid1" true true none (some bodyC7)
       (RouteOutcome.err "boom")).1).map SseEvent.id = [none, none] :=
  rfl

/-- C10: in the SSE path, when routing succeeds but the reply is not
valid UTF-8, the responder emits a single event of type error whose
data is the parse_error_json object (code -32700, message about
invalid UTF-8, data.type parse_error), the event carries no id, the
session's replay buffer is unchanged, and the allocated event id
(last_event_id + 1) is consumed by the stored session without being
attached to any event; the same holds on the initialize path after the
session bootstrap event. -/
theorem invalid_utf8_sse_error :
    (∀ (sessions : SessionsMap) (now : Nat) (freshId sid : String)
       (s : HttpSession) (v : Json) (m srv : String),
       lookupA sessions sid = some s → method_of v = m →
       needs_streaming m = true → (m == "initialize") = false →
       extract_server_name (some v) = some srv →
       handle_post sessions now freshId true true (some sid) (some v)
          (RouteOutcome.ok none)
         = (PostOutcome.sse
              [{ id := none, event_type := some "error",
                 data := EventData.json parse_error_json }]
              (s.last_event_id + 1),
            insertA sessions sid
              { s with last_activity := now, server_name := some srv,
                       has_event_tx := true,
                       last_event_id := s.last_event_id + 1 }))
    ∧ (∀ (sessions : SessionsMap) (now : Nat) (freshId : String)
        (hdr : Option String) (v : Json) (srv : String),
        method_of v = "initialize" →
        extract_server_name (some v) = some srv →
        handle_post sessions now freshId true true hdr (some v)
           (RouteOutcome.ok none)
          = (PostOutcome.sse
               [{ id := none, event_type := some "session",
                  data := EventData.raw (session_bootstrap freshId) },
                { id := none, event_type := some "error",
                  data := EventData.json parse_error_json }] 1,
             insertA sessions freshId
               { id := freshId, created_at := now, last_activity := now,
                 server_name := some srv, has_event_tx := true,
                 last_event_id := 1, message_buffer := [] })) := by
  constructor
  · intro sessions now freshId sid s v m srv hfind hm hstream hninit hx
    rw [handle_post_streaming_eq sessions now freshId sid s v
      (RouteOutcome.ok none) m srv hfind hm hstream hninit hx]
  · intro sessions now freshId hdr v srv hm hx
    rw [handle_post_init_eq sessions now freshId hdr v
      (RouteOutcome.ok none) srv hm hx]

theorem invalid_utf8_sse_error_witness :
    handle_post sessionsW 7 "f" true true (some "sw") (some bodyW)
        (RouteOutcome.ok none)
      = (PostOutcome.sse
           [{ id := none, event_type := some "error",
              data := EventData.json parse_error_json }]
           (sessW.last_event_id + 1),
         insertA sessionsW "sw"
           { sessW with last_activity := 7, server_name := some "alpha",
                        has_event_tx := true,
                        last_event_id := sessW.last_event_id + 1 })
    ∧ handle_post [] 3 "sid9" true true none (some bodyC7)
        (RouteOutcome.ok none)
      = (PostOutcome.sse
           [{ id := none, event_type := some "session",
              data := EventData.raw (session_bootstrap "sid9") },
            { id := none, event_type := some "error",
              data := EventData.json parse_error_json }] 1,
         insertA [] "sid9"
           { id := "sid9", created_at := 3, last_activity := 3,
             server_name := some "alpha", has_event_tx := true,
             last_event_id := 1, message_buffer := [] }) :=
  ⟨invalid_utf8_sse_error.1 sessionsW 7 "f" "sw" sessW bodyW
     "notifications/progress" "alpha" rfl rfl rfl rfl rfl,
   invalid_utf8_sse_error.2 [] 3 "sid9" none bodyC7 "alpha" rfl rfl⟩

end MCPCitadel
